import Mathlib

/-!
Verification development for the TalentShift applicant-scoring frontend.

The definitions below are shallow embeddings of the TypeScript sources:
the mock candidate dataset and job-requirement data (src/data/mockData.ts),
the score-band classifier getScoreClass (Dashboard and CandidateDetail),
the upload handler processFile with its simulation-mode fallback scorer
(UploadCV), and the job-template weight form (JobTemplate.tsx).
Machine integers are modelled as Int with explicit wrapping modulo 2 ^ 32;
strings compared by the code are modelled as Lean strings, and the filename
fed to the fallback hash is modelled as its list of UTF-16 code units.
-/

namespace TalentShift

/-- Signed 32-bit wrap of an integer, as produced by the JavaScript ToInt32
conversion (2147483648 = 2 ^ 31 and 4294967296 = 2 ^ 32). -/
def toInt32 (x : Int) : Int :=
  (x + 2147483648) % 4294967296 - 2147483648

/-- Code units of the decimal representation of a natural number, matching
the JavaScript file.size.toString(): decimal digits are ASCII, so UTF-16
code units agree with Lean character code points. -/
def decimalCodes (n : Nat) : List Nat :=
  (Nat.repr n).data.map Char.toNat

/-- One step of the rolling hash in the simulation fallback of processFile:
hash = ((hash << 5) - hash) + char followed by hash = hash & hash. The
left shift by 5 is a 32-bit operation, the subtraction and the addition are
exact double arithmetic, and the final bitwise and coerces the result back
to a signed 32-bit integer. -/
def codeStep (h : Int) (c : Nat) : Int :=
  toInt32 (toInt32 (h * 32) - h + c)

/-- The rolling hash computed by the loop in processFile, starting from 0. -/
def codeHash (cs : List Nat) : Int :=
  cs.foldl codeStep 0

/-- Simulation-mode score of processFile: (Math.abs(hash) % 61) + 40 over
the concatenation of the filename code units and the decimal string of the
file size. -/
def simulationScore (name : List Nat) (size : Nat) : Int :=
  (((codeHash (name ++ decimalCodes size)).natAbs % 61 : Nat) : Int) + 40

/-- Follows the words of the spec (refinement counterpart of codeStep):
per-character step h to 31 * h + charCode, wrapping on 32-bit overflow. -/
def specStep (h : Int) (c : Nat) : Int :=
  toInt32 (31 * h + c)

/-- Follows the words of the spec: the 32-bit signed rolling hash over a
list of character codes. -/
def specHash (cs : List Nat) : Int :=
  cs.foldl specStep 0

/-- Follows the words of the spec: abs(hash) mod 61 + 40 over the filename
concatenated with the decimal string of the size. -/
def estimateSpec (name : List Nat) (size : Nat) : Int :=
  (((specHash (name ++ decimalCodes size)).natAbs % 61 : Nat) : Int) + 40

theorem toInt32_add_left (a b : Int) :
    toInt32 (toInt32 a + b) = toInt32 (a + b) := by
  unfold toInt32
  omega

theorem codeStep_eq_specStep (h : Int) (c : Nat) :
    codeStep h c = specStep h c := by
  unfold codeStep specStep
  have h1 : toInt32 (h * 32) - h + (c : Int) = toInt32 (h * 32) + ((c : Int) - h) := by
    ring
  rw [h1, toInt32_add_left]
  congr 1
  ring

theorem codeHash_eq_specHash (cs : List Nat) : codeHash cs = specHash cs := by
  unfold codeHash specHash
  have h : codeStep = specStep := funext fun h => funext fun c => codeStep_eq_specStep h c
  rw [h]

/-- Claim C1: for every filename (as a list of UTF-16 code units) and every
file size, the simulation-mode score of processFile equals the estimator
described by the spec (32-bit signed rolling hash with step 31 * h + c,
then abs mod 61 plus 40), and the score always lies in the range 40 to
100. -/
theorem simulationScore_eq_spec_and_in_range (name : List Nat) (size : Nat) :
    simulationScore name size = estimateSpec name size ∧
      40 ≤ simulationScore name size ∧ simulationScore name size ≤ 100 := by
  refine ⟨?_, ?_, ?_⟩
  · unfold simulationScore estimateSpec
    rw [codeHash_eq_specHash]
  · unfold simulationScore
    omega
  · unfold simulationScore
    have hlt : (codeHash (name ++ decimalCodes size)).natAbs % 61 < 61 :=
      Nat.mod_lt _ (by norm_num)
    omega

/-- Index-based evaluation of the hash loop of processFile, mirroring the
source loop for i from 0 while i is less than str.length, reading the
character code by optional indexing: an out-of-range read would yield
none. -/
def hashFromIdx (cs : List Nat) (i : Nat) (h : Int) : Option Int :=
  if hi : i < cs.length then
    match cs[i]? with
    | some c => hashFromIdx cs (i + 1) (codeStep h c)
    | none => none
  else
    some h
termination_by cs.length - i

/-- The fallback estimator evaluated exactly as the code does, by indexed
loop; none would signal a failing evaluation. -/
def estimateLoop (name : List Nat) (size : Nat) : Option Int :=
  (hashFromIdx (name ++ decimalCodes size) 0 0).map
    (fun h => ((h.natAbs % 61 : Nat) : Int) + 40)

theorem hashFromIdx_eq (cs : List Nat) (i : Nat) (h : Int) :
    hashFromIdx cs i h = some ((cs.drop i).foldl codeStep h) := by
  unfold hashFromIdx
  split
  · next hi =>
      rw [List.getElem?_eq_getElem hi]
      show hashFromIdx cs (i + 1) (codeStep h cs[i]) = _
      rw [hashFromIdx_eq cs (i + 1) (codeStep h (cs[i]))]
      rw [List.drop_eq_getElem_cons hi]
      rfl
  · next hi =>
      rw [List.drop_eq_nil_of_le (Nat.le_of_not_lt hi)]
      rfl
termination_by cs.length - i

/-- Claim C2: the fallback estimator is pure and total. Evaluating the
loop of processFile by explicit indexing never fails (it always returns
some value, so no input raises), and the value is the pure function
simulationScore of the two inputs alone, hence two evaluations on
identical inputs return the identical score. -/
theorem estimateLoop_total_deterministic (name : List Nat) (size : Nat) :
    estimateLoop name size = some (simulationScore name size) := by
  unfold estimateLoop simulationScore codeHash
  rw [hashFromIdx_eq]
  rfl

/-- Candidate status values appearing in the sources: the mock dataset type
uses shortlisted, review, rejected and pending, and the backend API type
(src/services/api.ts) also allows interview. -/
inductive CandidateStatus
  | shortlisted
  | review
  | rejected
  | pending
  | interview
  deriving DecidableEq

/-- One entry of the skills list of a mock candidate. -/
structure SkillEntry where
  name : String
  matched : Bool
  deriving DecidableEq

/-- One entry of the portfolio list of a mock candidate. -/
structure PortfolioEntry where
  platform : String
  url : String
  deriving DecidableEq

/-- Education block of a mock candidate. -/
structure EducationInfo where
  level : String
  major : String
  institution : String
  year : Nat
  deriving DecidableEq

/-- Experience block of a mock candidate. -/
structure ExperienceInfo where
  years : ℚ
  title : String
  company : String
  deriving DecidableEq

/-- Breakdown entry with a details string (education, experience, bootcamp
and location criteria in mockData.ts). -/
structure BreakdownEntry where
  score : ℚ
  weight : ℚ
  details : String
  deriving DecidableEq

/-- Skills breakdown entry with matched and missing lists. -/
structure SkillsBreakdown where
  score : ℚ
  weight : ℚ
  matched : List String
  missing : List String
  deriving DecidableEq

/-- Portfolio breakdown entry with a platform list. -/
structure PortfolioBreakdown where
  score : ℚ
  weight : ℚ
  platforms : List String
  deriving DecidableEq

/-- The per-candidate score breakdown of mockData.ts. -/
structure ScoreBreakdown where
  education : BreakdownEntry
  experience : BreakdownEntry
  skills : SkillsBreakdown
  bootcamp : BreakdownEntry
  portfolio : PortfolioBreakdown
  location : BreakdownEntry
  deriving DecidableEq

/-- The Candidate interface of mockData.ts. -/
structure Candidate where
  id : String
  name : String
  email : String
  phone : String
  location : String
  score : ℚ
  status : CandidateStatus
  skills : List SkillEntry
  portfolio : List PortfolioEntry
  bootcamp : Option String
  education : EducationInfo
  experience : ExperienceInfo
  scoreBreakdown : ScoreBreakdown
  deriving DecidableEq

/-- Candidate 1 of mockData.ts. -/
def sarahChen : Candidate :=
  { id := "1"
    name := "Sarah Chen"
    email := "sarah@email.com"
    phone := "+62 812-3456-7890"
    location := "Jakarta"
    score := 92.5
    status := .shortlisted
    skills := [⟨"Python", true⟩, ⟨"SQL", true⟩, ⟨"Docker", true⟩]
    portfolio := [⟨"GitHub", "github.com/sarahchen"⟩]
    bootcamp := some "Hacktiv8"
    education := ⟨"S1", "Teknik Informatika", "UI", 2020⟩
    experience := ⟨5, "Senior Developer", "Gojek"⟩
    scoreBreakdown :=
      { education := ⟨90, 15, "S1 Teknik Informatika - UI (2020)"⟩
        experience := ⟨100, 25, "5 years as Senior Developer"⟩
        skills := ⟨100, 40, ["Python", "SQL", "Docker"], []⟩
        bootcamp := ⟨80, 10, "Hacktiv8 - Full Stack Program"⟩
        portfolio := ⟨80, 15, ["GitHub"]⟩
        location := ⟨100, 5, "Jakarta ✓ (Preferred location)"⟩ } }

/-- Candidate 2 of mockData.ts. -/
def johnDoe : Candidate :=
  { id := "2"
    name := "John Doe"
    email := "john@email.com"
    phone := "+62 812-3456-7891"
    location := "Jakarta"
    score := 78.5
    status := .review
    skills := [⟨"Python", true⟩, ⟨"SQL", true⟩, ⟨"REST API", false⟩]
    portfolio := [⟨"GitHub", "github.com/johndoe"⟩, ⟨"Website", "johndoe.dev"⟩]
    bootcamp := some "Dicoding"
    education := ⟨"S1", "Teknik Informatika", "UI", 2020⟩
    experience := ⟨4, "Software Developer", "Tokopedia"⟩
    scoreBreakdown :=
      { education := ⟨80, 15, "S1 Teknik Informatika - UI (2020)"⟩
        experience := ⟨100, 25, "4 years as Software Developer"⟩
        skills := ⟨70, 40, ["Python", "SQL", "Docker"], ["REST API"]⟩
        bootcamp := ⟨60, 10, "Dicoding - Backend Developer Path"⟩
        portfolio := ⟨80, 15, ["GitHub", "Website"]⟩
        location := ⟨100, 5, "Jakarta ✓ (Preferred location)"⟩ } }

/-- Candidate 3 of mockData.ts. -/
def andiPratama : Candidate :=
  { id := "3"
    name := "Andi Pratama"
    email := "andi@email.com"
    phone := "+62 812-3456-7892"
    location := "Bandung"
    score := 65.0
    status := .review
    skills := [⟨"Python", true⟩, ⟨"SQL", false⟩, ⟨"Docker", false⟩]
    portfolio := [⟨"LinkedIn", "linkedin.com/in/andipratama"⟩]
    bootcamp := none
    education := ⟨"S1", "Sistem Informasi", "ITB", 2021⟩
    experience := ⟨2, "Junior Developer", "Startup ABC"⟩
    scoreBreakdown :=
      { education := ⟨70, 15, "S1 Sistem Informasi - ITB (2021)"⟩
        experience := ⟨60, 25, "2 years as Junior Developer"⟩
        skills := ⟨40, 40, ["Python"], ["SQL", "Docker"]⟩
        bootcamp := ⟨0, 10, "No bootcamp/training"⟩
        portfolio := ⟨40, 15, ["LinkedIn"]⟩
        location := ⟨80, 5, "Bandung (Acceptable)"⟩ } }

/-- Candidate 4 of mockData.ts. -/
def budiSantoso : Candidate :=
  { id := "4"
    name := "Budi Santoso"
    email := "budi@email.com"
    phone := "+62 812-3456-7893"
    location := "Surabaya"
    score := 42.0
    status := .rejected
    skills := [⟨"Python", false⟩, ⟨"SQL", false⟩, ⟨"Docker", false⟩]
    portfolio := []
    bootcamp := none
    education := ⟨"D3", "Teknik Komputer", "Politeknik", 2022⟩
    experience := ⟨1, "IT Support", "PT Random"⟩
    scoreBreakdown :=
      { education := ⟨50, 15, "D3 Teknik Komputer - Politeknik (2022)"⟩
        experience := ⟨30, 25, "1 year as IT Support (not relevant)"⟩
        skills := ⟨0, 40, [], ["Python", "SQL", "Docker"]⟩
        bootcamp := ⟨0, 10, "No bootcamp/training"⟩
        portfolio := ⟨0, 15, []⟩
        location := ⟨60, 5, "Surabaya (Remote possible)"⟩ } }

/-- The candidates array of mockData.ts. -/
def candidates : List Candidate :=
  [sarahChen, johnDoe, andiPratama, budiSantoso]

/-- Education requirement of the mock jobRequirements record. -/
structure MockJobEducation where
  minLevel : String
  preferredMajor : List String
  weight : ℚ
  deriving DecidableEq

/-- Experience requirement of the mock jobRequirements record. -/
structure MockJobExperience where
  minYears : ℚ
  relevantTitles : List String
  weight : ℚ
  deriving DecidableEq

/-- Skills requirement of the mock jobRequirements record. -/
structure MockJobSkills where
  required : List String
  preferred : List String
  weight : ℚ
  deriving DecidableEq

/-- Bootcamp requirement of the mock jobRequirements record. -/
structure MockJobBootcamp where
  preferredProviders : List String
  weight : ℚ
  deriving DecidableEq

/-- Portfolio requirement of the mock jobRequirements record. -/
structure MockJobPortfolio where
  required : Bool
  preferredPlatforms : List String
  minProjects : Nat
  weight : ℚ
  deriving DecidableEq

/-- Location requirement of the mock jobRequirements record. -/
structure MockJobLocation where
  allowed : List String
  weight : ℚ
  deriving DecidableEq

/-- The full mock job requirement record of mockData.ts. -/
structure MockJobRequirements where
  title : String
  department : String
  education : MockJobEducation
  experience : MockJobExperience
  skills : MockJobSkills
  bootcamp : MockJobBootcamp
  portfolio : MockJobPortfolio
  location : MockJobLocation
  deriving DecidableEq

/-- The jobRequirements export of mockData.ts. -/
def jobRequirements : MockJobRequirements :=
  { title := "Backend Developer"
    department := "Engineering"
    education := ⟨"S1", ["Informatika", "Teknik Komputer", "Sistem Informasi"], 15⟩
    experience := ⟨3, ["Developer", "Engineer", "Programmer"], 25⟩
    skills := ⟨["Python", "SQL", "REST API"], ["Docker", "AWS", "PostgreSQL"], 40⟩
    bootcamp :=
      ⟨["Hacktiv8", "Binar Academy", "Dicoding", "Purwadhika", "Sanbercode", "Coursera"], 10⟩
    portfolio :=
      ⟨true, ["GitHub", "GitLab", "Personal Website", "Behance", "Dribbble"], 2, 15⟩
    location := ⟨["Jakarta", "Bandung", "Remote"], 5⟩ }

/-- Modelled from the spec: the initial-status threshold rule of the
scoring engine (section 4.3 step 4) lives in the backend, which is not
among the reviewed frontend sources; total score at least 80 gives
shortlisted, at least 60 but below 80 gives review, below 60 gives
rejected, and interview is never auto-assigned. -/
def statusOfScore (s : ℚ) : CandidateStatus :=
  if 80 ≤ s then .shortlisted else if 60 ≤ s then .review else .rejected

/-- Claim C3: every candidate record in the dataset has the status given by
the threshold classification of its total score, and no initial status is
interview. -/
theorem candidates_status_matches_threshold :
    ∀ c ∈ candidates,
      c.status = statusOfScore c.score ∧ c.status ≠ CandidateStatus.interview := by
  intro c hc
  simp only [candidates, List.mem_cons, List.not_mem_nil, or_false] at hc
  rcases hc with rfl | rfl | rfl | rfl
  · exact ⟨by norm_num [sarahChen, statusOfScore], by decide⟩
  · exact ⟨by norm_num [johnDoe, statusOfScore], by decide⟩
  · exact ⟨by norm_num [andiPratama, statusOfScore], by decide⟩
  · exact ⟨by norm_num [budiSantoso, statusOfScore], by decide⟩

/-- Witness for claim C3 at the first candidate of the dataset. -/
theorem candidates_status_matches_threshold_witness :
    sarahChen.status = statusOfScore sarahChen.score ∧
      sarahChen.status ≠ CandidateStatus.interview :=
  candidates_status_matches_threshold sarahChen (List.Mem.head _)

/-- The getScoreClass function, written identically in Dashboard.tsx and
CandidateDetail.tsx. -/
def getScoreClass (score : ℚ) : String :=
  if 80 ≤ score then "high" else if 60 ≤ score then "medium" else "low"

/-- Claim C4: the score-band classifier yields the high band exactly on
scores at least 80, the medium band exactly on scores at least 60 and
below 80, and the low band exactly on scores below 60; the three bands
are exhaustive (and, the characterizations being exclusive, disjoint). -/
theorem getScoreClass_bands (s : ℚ) :
    (getScoreClass s = "high" ↔ 80 ≤ s) ∧
      (getScoreClass s = "medium" ↔ 60 ≤ s ∧ s < 80) ∧
      (getScoreClass s = "low" ↔ s < 60) ∧
      (getScoreClass s = "high" ∨ getScoreClass s = "medium" ∨ getScoreClass s = "low") := by
  have hhm : ("high" : String) ≠ "medium" := by decide
  have hhl : ("high" : String) ≠ "low" := by decide
  have hml : ("medium" : String) ≠ "low" := by decide
  unfold getScoreClass
  split_ifs with h1 h2
  · exact ⟨⟨fun _ => h1, fun _ => rfl⟩,
      ⟨fun h => absurd h hhm, fun h => (by linarith [h.2] : False).elim⟩,
      ⟨fun h => absurd h hhl, fun h => (by linarith : False).elim⟩,
      Or.inl rfl⟩
  · exact ⟨⟨fun h => absurd h.symm hhm, fun h => absurd h h1⟩,
      ⟨fun _ => ⟨h2, not_le.mp h1⟩, fun _ => rfl⟩,
      ⟨fun h => absurd h hml, fun h => (by linarith : False).elim⟩,
      Or.inr (Or.inl rfl)⟩
  · exact ⟨⟨fun h => absurd h.symm hhl, fun h => absurd h h1⟩,
      ⟨fun h => absurd h.symm hml, fun h => absurd h.1 h2⟩,
      ⟨fun _ => not_le.mp h2, fun _ => rfl⟩,
      Or.inr (Or.inr rfl)⟩

/-- Claim C5 (falsified by the dataset): the skills breakdown of candidate
2 (John Doe) lists Docker as matched although Docker is not among the
required skills of the job requirement record (it is a preferred skill),
so matched and missing together do not equal the required list. -/
theorem johnDoe_skills_matched_contains_preferred :
    johnDoe.scoreBreakdown.skills.matched = ["Python", "SQL", "Docker"] ∧
      "Docker" ∈ johnDoe.scoreBreakdown.skills.matched ∧
      "Docker" ∉ jobRequirements.skills.required ∧
      "Docker" ∈ jobRequirements.skills.preferred := by
  decide

/-- Claim C6 counterexample: candidate 2 (John Doe) has bootcamp Dicoding,
which is among the preferred providers of the job requirement record, yet
his bootcamp criterion score is 60, not 80. -/
theorem johnDoe_preferred_bootcamp_not_80 :
    johnDoe.bootcamp = some "Dicoding" ∧
      "Dicoding" ∈ jobRequirements.bootcamp.preferredProviders ∧
      johnDoe.scoreBreakdown.bootcamp.score = 60 := by
  decide

/-- Claim C6 amended: in the dataset a candidate with no bootcamp scores 0
on the bootcamp criterion; every recorded bootcamp is a preferred
provider, and such candidates score 80 except the one with bootcamp
Dicoding, which scores 60; no candidate exercises the non-preferred
40-point branch. -/
theorem candidates_bootcamp_scores :
    ∀ c ∈ candidates,
      (c.bootcamp = none → c.scoreBreakdown.bootcamp.score = 0) ∧
        (∀ b ∈ c.bootcamp.toList, b ∈ jobRequirements.bootcamp.preferredProviders) ∧
        (c.bootcamp = some "Dicoding" → c.scoreBreakdown.bootcamp.score = 60) ∧
        (c.bootcamp.isSome = true → c.bootcamp ≠ some "Dicoding" →
          c.scoreBreakdown.bootcamp.score = 80) := by
  decide

/-- Witness for the amended claim C6 at candidate 2 (John Doe). -/
theorem candidates_bootcamp_scores_witness :
    (johnDoe.bootcamp = none → johnDoe.scoreBreakdown.bootcamp.score = 0) ∧
      (∀ b ∈ johnDoe.bootcamp.toList, b ∈ jobRequirements.bootcamp.preferredProviders) ∧
      (johnDoe.bootcamp = some "Dicoding" → johnDoe.scoreBreakdown.bootcamp.score = 60) ∧
      (johnDoe.bootcamp.isSome = true → johnDoe.bootcamp ≠ some "Dicoding" →
        johnDoe.scoreBreakdown.bootcamp.score = 80) :=
  candidates_bootcamp_scores johnDoe (List.Mem.tail _ (List.Mem.head _))

/-- Lower-cased character list of a string (basic latin letters), used for
case-insensitive comparison. -/
def lowerChars (s : String) : List Char :=
  s.data.map Char.toLower

/-- Case-insensitive membership of a location in the allowed list, the
comparison the spec prescribes for the location criterion. -/
def locationAllowedCI (loc : String) (allowed : List String) : Bool :=
  allowed.any (fun t => lowerChars t == lowerChars loc)

/-- Claim C7 counterexample: candidate 3 (Andi Pratama) is located in
Bandung, which is (case-insensitively) in the allowed location list, yet
his location criterion score is 80, not 100. -/
theorem andiPratama_allowed_location_not_100 :
    andiPratama.location = "Bandung" ∧
      locationAllowedCI andiPratama.location jobRequirements.location.allowed = true ∧
      andiPratama.scoreBreakdown.location.score = 80 := by
  decide

/-- Claim C7 amended: in the dataset a candidate located in Jakarta (the
preferred allowed location) scores 100 on the location criterion, the
candidate in Bandung scores 80 although Bandung is in the allowed list,
and a candidate whose location is not case-insensitively allowed scores
the fixed partial value 60. -/
theorem candidates_location_scores :
    ∀ c ∈ candidates,
      (c.location = "Jakarta" → c.scoreBreakdown.location.score = 100) ∧
        (c.location = "Bandung" → c.scoreBreakdown.location.score = 80) ∧
        (locationAllowedCI c.location jobRequirements.location.allowed = false →
          c.scoreBreakdown.location.score = 60) := by
  decide

/-- Witness for the amended claim C7 at candidate 3 (Andi Pratama). -/
theorem candidates_location_scores_witness :
    (andiPratama.location = "Jakarta" → andiPratama.scoreBreakdown.location.score = 100) ∧
      (andiPratama.location = "Bandung" → andiPratama.scoreBreakdown.location.score = 80) ∧
      (locationAllowedCI andiPratama.location jobRequirements.location.allowed = false →
        andiPratama.scoreBreakdown.location.score = 60) :=
  candidates_location_scores andiPratama
    (List.Mem.tail _ (List.Mem.tail _ (List.Mem.head _)))

/-- Upload status of a file record in UploadCV.tsx. -/
inductive FileStatus
  | uploading
  | parsing
  | scored
  | error
  deriving DecidableEq

/-- The UploadedFile record of UploadCV.tsx. The filename is modelled as
the list of its UTF-16 code units, the same list the fallback hash
consumes. -/
structure UploadedFile where
  id : String
  name : List Nat
  size : Nat
  status : FileStatus
  progress : Nat
  score : Option ℚ := none
  candidateId : Option Nat := none
  candidateName : Option String := none
  error : Option String := none
  deriving DecidableEq

/-- Input file handed to processFile: filename code units, byte size and
MIME type. -/
structure FileInput where
  name : List Nat
  size : Nat
  type : String
  deriving DecidableEq

/-- The MIME types accepted by processFile. -/
def validTypes : List String :=
  ["application/pdf",
    "application/vnd.openxmlformats-officedocument.wordprocessingml.document"]

/-- The fresh record processFile appends for a new upload. -/
def newFileRec (fileId : String) (file : FileInput) : UploadedFile :=
  { id := fileId, name := file.name, size := file.size,
    status := .uploading, progress := 0 }

/-- The setFiles update pattern of UploadCV.tsx: map an update over the
entry whose id matches. -/
def setById (fileId : String) (upd : UploadedFile → UploadedFile)
    (fs : List UploadedFile) : List UploadedFile :=
  fs.map (fun f => if f.id = fileId then upd f else f)

/-- The fallback-branch update of processFile: mark the file scored with
the simulation score; no other field is written. -/
def fallbackUpdate (file : FileInput) (f : UploadedFile) : UploadedFile :=
  { f with status := .scored,
           score := some ((simulationScore file.name file.size : Int) : ℚ) }

/-- The backend-success update of processFile: status scored, score,
candidate id and candidate name. -/
def backendOkUpdate (totalScore : ℚ) (candidateId : Nat)
    (candidateName : Option String) (f : UploadedFile) : UploadedFile :=
  { f with status := .scored, score := some totalScore,
           candidateId := some candidateId, candidateName := candidateName }

/-- The backend-failure update of processFile: status error plus message. -/
def backendErrUpdate (msg : String) (f : UploadedFile) : UploadedFile :=
  { f with status := .error, error := some msg }

/-- Outcome of the api.scoreCV call made by processFile. -/
inductive BackendOutcome
  | ok (totalScore : ℚ) (candidateId : Nat) (candidateName : Option String)
  | fail (msg : String)
  deriving DecidableEq

/-- Final file-list state produced by one processFile call of UploadCV.tsx,
with the asynchronous setFiles updates applied in program order: the MIME
check and the duplicate check return early with the list untouched;
otherwise the new record is appended, driven through the progress loop and
the parsing stage, and then scored by the fallback when backendAvailable
is not true (the JavaScript test if (!backendAvailable) also fires while
the health check is still pending, modelled here as none) or by the
backend outcome otherwise. -/
def processFile (backendAvailable : Option Bool) (fileId : String)
    (outcome : BackendOutcome) (files : List UploadedFile)
    (file : FileInput) : List UploadedFile :=
  if validTypes.contains file.type = false then files
  else if files.any (fun f => f.name == file.name && f.size == file.size) = true then
    files
  else
    let fs1 := files ++ [newFileRec fileId file]
    let fs2 := setById fileId (fun f => { f with progress := 100 }) fs1
    let fs3 := setById fileId (fun f => { f with status := .parsing, progress := 100 }) fs2
    if backendAvailable ≠ some true then
      setById fileId (fallbackUpdate file) fs3
    else
      match outcome with
      | .ok ts cid cn => setById fileId (backendOkUpdate ts cid cn) fs3
      | .fail msg => setById fileId (backendErrUpdate msg) fs3

/-- The visible label of the per-file status tag rendered by getStatusTag
in UploadCV.tsx. -/
def getStatusTagLabel : FileStatus → String
  | .scored => "Scored"
  | .parsing => "Parsing..."
  | .uploading => "Uploading..."
  | .error => "Error"

/-- The simulation-mode banner of UploadCV.tsx is rendered exactly when
backendAvailable === false. -/
def simulationBannerShown (backendAvailable : Option Bool) : Bool :=
  backendAvailable == some false

/-- Claim C8 counterexample: with the health check still pending
(backendAvailable null), processFile takes the fallback branch and marks
the file scored with candidateId left empty, the simulation banner is not
rendered, and the per-file status tag is the same Scored label a
backend-scored upload receives, so the estimated score reaches the display
with no tag distinguishing it from a computed score. -/
theorem fallback_output_not_tagged :
    (processFile none "1" (BackendOutcome.fail "e") []
        ⟨[99, 118], 10, "application/pdf"⟩).map
      (fun f => (getStatusTagLabel f.status, f.candidateId)) = [("Scored", none)] ∧
      (processFile (some true) "1" (BackendOutcome.ok 90 7 none) []
          ⟨[99, 118], 10, "application/pdf"⟩).map
        (fun f => (getStatusTagLabel f.status, f.candidateId)) = [("Scored", some 7)] ∧
      simulationBannerShown none = false := by
  decide

/-- Claim C8 amended: the fallback estimator never populates matched or
missing data. Its update writes only the status and the score of the file
record, so a fallback-scored upload keeps candidateId (and every other
field) unchanged, making the missing candidate id the only machine-level
distinction from a backend-scored upload: the visible status tag is
identical for both, and the page-level simulation banner distinguishes the
modes only when backendAvailable is exactly false. -/
theorem fallbackUpdate_only_status_score (file : FileInput) (f g : UploadedFile)
    (ts : ℚ) (cid : Nat) (cn : Option String) :
    (fallbackUpdate file f).id = f.id ∧
      (fallbackUpdate file f).name = f.name ∧
      (fallbackUpdate file f).size = f.size ∧
      (fallbackUpdate file f).progress = f.progress ∧
      (fallbackUpdate file f).candidateId = f.candidateId ∧
      (fallbackUpdate file f).candidateName = f.candidateName ∧
      (fallbackUpdate file f).error = f.error ∧
      (fallbackUpdate file f).status = FileStatus.scored ∧
      (fallbackUpdate file f).score =
        some ((simulationScore file.name file.size : Int) : ℚ) ∧
      getStatusTagLabel (fallbackUpdate file f).status =
        getStatusTagLabel (backendOkUpdate ts cid cn g).status ∧
      simulationBannerShown (some false) = true ∧
      simulationBannerShown none = false ∧
      simulationBannerShown (some true) = false :=
  ⟨rfl, rfl, rfl, rfl, rfl, rfl, rfl, rfl, rfl, rfl, rfl, rfl, rfl⟩

/-- Claim C10: the duplicate-upload guard. If the upload list already
contains an entry with the same name and the same size as the incoming
file, processFile returns the list unchanged, whatever the backend
availability and outcome: the file is not added, uploaded or scored
again. -/
theorem processFile_duplicate_unchanged (ba : Option Bool) (fileId : String)
    (outcome : BackendOutcome) (files : List UploadedFile) (file : FileInput)
    (hdup : files.any (fun f => f.name == file.name && f.size == file.size) = true) :
    processFile ba fileId outcome files file = files := by
  unfold processFile
  rw [hdup]
  split <;> rfl

/-- Witness for claim C10: re-uploading a file with the name and size of
an already-listed upload leaves the one-element list unchanged. -/
theorem processFile_duplicate_unchanged_witness :
    ([newFileRec "0" ⟨[99, 118], 3, "application/pdf"⟩].any
        (fun f => f.name == ([99, 118] : List Nat) && f.size == 3) = true) ∧
      processFile (some false) "1" (BackendOutcome.fail "e")
          [newFileRec "0" ⟨[99, 118], 3, "application/pdf"⟩]
          ⟨[99, 118], 3, "application/pdf"⟩ =
        [newFileRec "0" ⟨[99, 118], 3, "application/pdf"⟩] :=
  ⟨by decide,
    processFile_duplicate_unchanged (some false) "1" (BackendOutcome.fail "e")
      [newFileRec "0" ⟨[99, 118], 3, "application/pdf"⟩]
      ⟨[99, 118], 3, "application/pdf"⟩ (by decide)⟩

/-- The WeightState record of JobTemplate.tsx. -/
structure WeightState where
  education : ℚ
  experience : ℚ
  skills : ℚ
  bootcamp : ℚ
  portfolio : ℚ
  location : ℚ
  deriving DecidableEq

/-- Object.values of the weight record, in declaration order. -/
def weightValues (w : WeightState) : List ℚ :=
  [w.education, w.experience, w.skills, w.bootcamp, w.portfolio, w.location]

/-- The totalWeight computation of JobTemplate.tsx:
Object.values(weights).reduce with addition from 0. -/
def totalWeight (w : WeightState) : ℚ :=
  (weightValues w).foldl (fun a b => a + b) 0

/-- The imbalance warning of JobTemplate.tsx is rendered exactly when
totalWeight is not 100. -/
def weightWarningShown (w : WeightState) : Bool :=
  totalWeight w != 100

/-- Education requirements of the api.ts JobRequirements interface. -/
structure EducationReq where
  min_level : String
  preferred_major : List String
  weight : ℚ
  deriving DecidableEq

/-- Experience requirements of the api.ts JobRequirements interface. -/
structure ExperienceReq where
  min_years : ℚ
  relevant_titles : List String
  weight : ℚ
  deriving DecidableEq

/-- Skills requirements of the api.ts JobRequirements interface. -/
structure SkillsReq where
  required : List String
  preferred : List String
  weight : ℚ
  deriving DecidableEq

/-- Bootcamp requirements of the api.ts JobRequirements interface. -/
structure BootcampReq where
  preferred_providers : List String
  weight : ℚ
  deriving DecidableEq

/-- Portfolio requirements of the api.ts JobRequirements interface. -/
structure PortfolioReq where
  required : Bool
  preferred_platforms : List String
  min_projects : ℚ
  weight : ℚ
  deriving DecidableEq

/-- Location requirements of the api.ts JobRequirements interface. -/
structure LocationReq where
  allowed : List String
  weight : ℚ
  deriving DecidableEq

/-- The JobRequirements interface of api.ts. -/
structure JobRequirements where
  education : EducationReq
  experience : ExperienceReq
  skills : SkillsReq
  bootcamp : BootcampReq
  portfolio : PortfolioReq
  location : LocationReq
  deriving DecidableEq

/-- The comma-split, trim and filter(Boolean) applied by buildRequirements
to the preferred-major and allowed-location text fields. -/
def splitTrimFilter (s : String) : List String :=
  ((s.splitOn ",").map String.trim).filter (fun t => t != "")

/-- The buildRequirements function of JobTemplate.tsx, as a function of
the form state. -/
def buildRequirements (educationLevel educationMajors : String)
    (experienceYears : ℚ)
    (requiredSkills preferredSkills bootcampProviders portfolioPlatforms : List String)
    (minProjects : ℚ) (allowedLocations : String)
    (weights : WeightState) : JobRequirements :=
  { education := { min_level := educationLevel,
                   preferred_major := splitTrimFilter educationMajors,
                   weight := weights.education }
    experience := { min_years := experienceYears,
                    relevant_titles := ["Developer", "Engineer", "Programmer"],
                    weight := weights.experience }
    skills := { required := requiredSkills, preferred := preferredSkills,
                weight := weights.skills }
    bootcamp := { preferred_providers := bootcampProviders,
                  weight := weights.bootcamp }
    portfolio := { required := true, preferred_platforms := portfolioPlatforms,
                   min_projects := minProjects, weight := weights.portfolio }
    location := { allowed := splitTrimFilter allowedLocations,
                  weight := weights.location } }

/-- The handleSave action of JobTemplate.tsx: it refuses only when the
backend is unavailable, and otherwise submits the built requirements; the
weight total is never consulted. -/
def handleSave (backendAvailable : Option Bool)
    (educationLevel educationMajors : String) (experienceYears : ℚ)
    (requiredSkills preferredSkills bootcampProviders portfolioPlatforms : List String)
    (minProjects : ℚ) (allowedLocations : String)
    (weights : WeightState) : Option JobRequirements :=
  if backendAvailable == some true then
    some (buildRequirements educationLevel educationMajors experienceYears
      requiredSkills preferredSkills bootcampProviders portfolioPlatforms
      minProjects allowedLocations weights)
  else
    none

/-- Claim C9: for every weight assignment the displayed total equals the
sum of the six criterion weights, the imbalance warning is rendered
exactly when that sum differs from 100, and an unbalanced sum is
tolerated: the built job requirements carry the six weights through
unchanged (no rescaling) and handleSave submits them regardless of the
total. -/
theorem totalWeight_sum_warning_tolerated (w : WeightState)
    (educationLevel educationMajors : String) (experienceYears : ℚ)
    (requiredSkills preferredSkills bootcampProviders portfolioPlatforms : List String)
    (minProjects : ℚ) (allowedLocations : String) :
    totalWeight w =
        w.education + w.experience + w.skills + w.bootcamp + w.portfolio + w.location ∧
      (weightWarningShown w = true ↔ totalWeight w ≠ 100) ∧
      (buildRequirements educationLevel educationMajors experienceYears
          requiredSkills preferredSkills bootcampProviders portfolioPlatforms
          minProjects allowedLocations w).education.weight = w.education ∧
      (buildRequirements educationLevel educationMajors experienceYears
          requiredSkills preferredSkills bootcampProviders portfolioPlatforms
          minProjects allowedLocations w).experience.weight = w.experience ∧
      (buildRequirements educationLevel educationMajors experienceYears
          requiredSkills preferredSkills bootcampProviders portfolioPlatforms
          minProjects allowedLocations w).skills.weight = w.skills ∧
      (buildRequirements educationLevel educationMajors experienceYears
          requiredSkills preferredSkills bootcampProviders portfolioPlatforms
          minProjects allowedLocations w).bootcamp.weight = w.bootcamp ∧
      (buildRequirements educationLevel educationMajors experienceYears
          requiredSkills preferredSkills bootcampProviders portfolioPlatforms
          minProjects allowedLocations w).portfolio.weight = w.portfolio ∧
      (buildRequirements educationLevel educationMajors experienceYears
          requiredSkills preferredSkills bootcampProviders portfolioPlatforms
          minProjects allowedLocations w).location.weight = w.location ∧
      handleSave (some true) educationLevel educationMajors experienceYears
          requiredSkills preferredSkills bootcampProviders portfolioPlatforms
          minProjects allowedLocations w =
        some (buildRequirements educationLevel educationMajors experienceYears
          requiredSkills preferredSkills bootcampProviders portfolioPlatforms
          minProjects allowedLocations w) := by
  refine ⟨?_, ?_, rfl, rfl, rfl, rfl, rfl, rfl, rfl⟩
  · unfold totalWeight weightValues
    simp [List.foldl]
  · unfold weightWarningShown
    simp [bne_iff_ne]

end TalentShift
